import Mathlib

/-!
Shallow embedding of the technopedia-backend NestJS service layer.

Conventions of the embedding:
* Database tables are Lean lists of rows carried in explicit state records;
  Prisma `findFirst`/`findUnique` become `List.find?` over the row list,
  `updateMany` becomes `List.map`, `create` appends a row and bumps the id
  counter.
* NestJS exceptions become the `AppError` sum type; a service method that can
  throw returns `Except AppError α`.
* `createdAt`/`updatedAt` timestamps and logging calls are omitted: no claim
  observes them and they are pass-through in every response mapper.
* Integer path/body parameters go through `ParseIntPipe`; all ids appearing in
  the claims are database serial ids, carried as `Nat`.
-/

namespace Technopedia

/-- NestJS HTTP exceptions used by the service layer, with their message. -/
inductive AppError where
  | badRequest (message : String)
  | unauthorized (message : String)
  | forbidden (message : String)
  | notFound (message : String)
  | internal (message : String)
  deriving Repr, DecidableEq

/-- A row of the `users` table (fields the services read; timestamps omitted).
`password` and `refreshToken` are nullable columns. -/
structure User where
  id : Nat
  name : String
  email : String
  password : Option String
  refreshToken : Option String
  role : String
  deriving Repr, DecidableEq

/-- Paging metadata attached to list responses
(`{ current_page, size, total_page }`). -/
structure Paging where
  size : Nat
  current_page : Nat
  total_page : Nat
  deriving Repr, DecidableEq

/-- A `WebResponse` carrying a data page plus paging metadata, as returned by
the `list` service methods. -/
structure ListResponse (α : Type) where
  data : List α
  paging : Paging
  deriving Repr, DecidableEq

/-- Models `Math.ceil(total / size)` on natural counts (sizes in the code are
positive). -/
def mathCeil (total size : Nat) : Nat := (total + size - 1) / size

/-! ## Address module (`address.service.ts`, `address.controller.ts`) -/

/-- A row of the `addresses` table. -/
structure Address where
  id : Nat
  userId : Nat
  street : String
  city : String
  province : String
  country : String
  postalCode : String
  isPrimary : Bool
  deriving Repr, DecidableEq

/-- Body of `POST /users/:userId/addresses` (`CreateAddressRequest`). -/
structure CreateAddressRequest where
  userId : Nat
  street : String
  city : String
  province : String
  country : String
  postalCode : String
  isPrimary : Bool
  deriving Repr, DecidableEq

/-- The `addresses` table plus the serial-id counter. -/
structure AddressDB where
  rows : List Address
  nextId : Nat
  deriving Repr, DecidableEq

/-- Embeds `AddressValidation.CREATE`: the Zod schema for address creation
(userId positive; street 1..255; city/province/country 1..100;
postalCode 1..10). -/
def AddressValidation.CREATE (r : CreateAddressRequest) : Bool :=
  decide (0 < r.userId) &&
  decide (1 ≤ r.street.length) && decide (r.street.length ≤ 255) &&
  decide (1 ≤ r.city.length) && decide (r.city.length ≤ 100) &&
  decide (1 ≤ r.province.length) && decide (r.province.length ≤ 100) &&
  decide (1 ≤ r.country.length) && decide (r.country.length ≤ 100) &&
  decide (1 ≤ r.postalCode.length) && decide (r.postalCode.length ≤ 10)

/-- Modelled from the spec: `ValidationService.validate` lives in
`src/common/validation.service.ts`, which is not part of the source snapshot
(only its callers are). Per the spec's Validation Layer, it checks the
incoming request against the resource's Zod schema and hands the request on
to the service unchanged, raising a `ZodError` (which every service maps to
`BadRequestException`) when a field violates the schema. -/
def ValidationService.validate (schemaOk : Bool) : Except AppError Unit :=
  if schemaOk then .ok () else .error (.badRequest "ZodError")

/-- Embeds `AddressService.checkExistingAddress`: `findFirst` on the full address
tuple for the user; a hit is `BadRequestException('This Address is already
exists')`. -/
def AddressService.checkExistingAddress (db : AddressDB) (userId : Nat)
    (street city province country postalCode : String) : Except AppError Unit :=
  match db.rows.find? (fun a =>
      a.userId == userId && a.street == street && a.city == city &&
      a.province == province && a.country == country && a.postalCode == postalCode) with
  | some _ => .error (.badRequest "This Address is already exists")
  | none => .ok ()

/-- Embeds `AddressService.primaryAddress`: `updateMany` setting `isPrimary := false`
on every primary address of the user. -/
def AddressService.primaryAddress (db : AddressDB) (userId : Nat) : AddressDB :=
  { db with
    rows := db.rows.map (fun a =>
      if a.userId == userId && a.isPrimary then { a with isPrimary := false } else a) }

/-- Embeds `AddressService.create`: validate, reject duplicate tuples, demote the
existing primaries when the new address is flagged primary, then insert the
new row for `user.id` and return it. -/
def AddressService.create (user : User) (db : AddressDB)
    (request : CreateAddressRequest) : Except AppError (AddressDB × Address) := do
  let _ ← ValidationService.validate (AddressValidation.CREATE request)
  let _ ← AddressService.checkExistingAddress db user.id
    request.street request.city request.province request.country request.postalCode
  let db1 := if request.isPrimary then AddressService.primaryAddress db user.id else db
  let address : Address :=
    { id := db1.nextId, userId := user.id, street := request.street,
      city := request.city, province := request.province,
      country := request.country, postalCode := request.postalCode,
      isPrimary := request.isPrimary }
  .ok ({ rows := db1.rows ++ [address], nextId := db1.nextId + 1 }, address)

/-- Embeds `AddressService.list`: page of the user's addresses
(`skip = (page-1)*limit`, `take = limit`) plus paging metadata; an empty page
is returned as-is, never an error. -/
def AddressService.list (user : User) (db : AddressDB) (limit page : Nat) :
    Except AppError (ListResponse Address) :=
  let skip := (page - 1) * limit
  let matching := db.rows.filter (fun a => a.userId == user.id)
  let addresses := (matching.drop skip).take limit
  .ok { data := addresses,
        paging := { size := limit, current_page := page,
                    total_page := mathCeil matching.length limit } }

/-- Embeds `AddressController.create` (`POST /users/:userId/addresses`): the handler
assigns `request.userId = userId` and only then compares `request.userId`
with `userId`, so the `ForbiddenException` guard can never fire; it then
calls `AddressService.create` with the authenticated principal. -/
def AddressController.create (user : User) (userId : Nat)
    (request : CreateAddressRequest) (db : AddressDB) :
    Except AppError (AddressDB × Address) :=
  let request := { request with userId := userId }
  if request.userId ≠ userId then
    .error (.forbidden "You are not authorized to view this user\x27s addresses")
  else
    AddressService.create user db request

/-- Embeds `AddressController.list` (`GET /users/:userId/addresses`): rejects with
`ForbiddenException` when the principal's id differs from the path `userId`,
otherwise delegates to `AddressService.list`; non-Forbidden failures are
wrapped in `InternalServerErrorException`. -/
def AddressController.list (user : User) (userId : Nat) (db : AddressDB)
    (page limit : Nat) : Except AppError (ListResponse Address) :=
  if user.id ≠ userId then
    .error (.forbidden "You are not authorized to view this user\x27s addresses")
  else
    match AddressService.list user db limit page with
    | .ok r => .ok r
    | .error _ => .error (.internal "Internal Server Error")

/-! ## Store module (`store.service.ts`, store controller) -/

/-- A row of the `stores` table. -/
structure Store where
  id : Nat
  userId : Nat
  name : String
  deriving Repr, DecidableEq

/-- Body of `PUT /users/:userId/stores/:storeId` (`UpdateStoreRequest`). -/
structure UpdateStoreRequest where
  id : Nat
  name : String
  deriving Repr, DecidableEq

/-- Embeds `StoreValidation.UPDATE`: the Zod schema for store update
(`id` positive, `name` nonempty when present; the request type always
carries a name). -/
def StoreValidation.UPDATE (r : UpdateStoreRequest) : Bool :=
  decide (0 < r.id) && decide (1 ≤ r.name.length)

/-- Embeds `StoreService.checkExistingStore(id, userId)`: `findFirst` on
`{ id, userId }`, `NotFoundException('Store not found')` on a miss.
The first parameter is the store id, the second the owner id. -/
def StoreService.checkExistingStore (stores : List Store) (id userId : Nat) :
    Except AppError Store :=
  match stores.find? (fun s => s.id == id && s.userId == userId) with
  | some store => .ok store
  | none => .error (.notFound "Store not found")

/-- Embeds `StoreService.checkStoreNameExists(userId, name, excludeId?)`:
`findFirst` on `{ userId, name, NOT: { id: excludeId } }` (no exclusion when
`excludeId` is absent); a hit is `BadRequestException('You have already added
this store')`. -/
def StoreService.checkStoreNameExists (stores : List Store) (userId : Nat)
    (name : String) (excludeId : Option Nat) : Except AppError Unit :=
  match stores.find? (fun s =>
      s.userId == userId && s.name == name &&
      (match excludeId with | some e => s.id != e | none => true)) with
  | some _ => .error (.badRequest "You have already added this store")
  | none => .ok ()

/-- Embeds `StoreService.get`: ownership-scoped lookup
(`checkExistingStore(id, user.id)`) returning the store. -/
def StoreService.get (user : User) (id : Nat) (stores : List Store) :
    Except AppError Store :=
  StoreService.checkExistingStore stores id user.id

/-- Embeds `StoreService.update`: validates, looks the store up with
`checkExistingStore(request.id, user.id)`, then calls
`checkStoreNameExists(store.id, request.name, user.id)` — passing the store
id where the helper expects the owner id and the owner id as the excluded
store id — and finally writes the new name. -/
def StoreService.update (user : User) (request : UpdateStoreRequest)
    (stores : List Store) : Except AppError (List Store × Store) := do
  let _ ← ValidationService.validate (StoreValidation.UPDATE request)
  let store ← StoreService.checkExistingStore stores request.id user.id
  let _ ← StoreService.checkStoreNameExists stores store.id request.name (some user.id)
  let updated : Store := { store with name := request.name }
  .ok (stores.map (fun s => if s.id == store.id then { s with name := request.name } else s),
       updated)

/-- Embeds `StoreService.delete`: calls `checkExistingStore(user.id, id)` — passing
the principal's id where the helper expects the store id and the store id as
the owner id — then deletes the found row. -/
def StoreService.delete (user : User) (id : Nat) (stores : List Store) :
    Except AppError (List Store × String × Bool) := do
  let store ← StoreService.checkExistingStore stores user.id id
  .ok (stores.filter (fun s => s.id != store.id), "Store successfully deleted", true)

/-- Embeds `StoreController.checkAuthorization`: `UnauthorizedException` when the
principal's id differs from the path `userId`. -/
def StoreController.checkAuthorization (userId : Nat) (user : User) :
    Except AppError Unit :=
  if user.id ≠ userId then
    .error (.unauthorized "You are not authorized to access this user\x27s stores")
  else .ok ()

/-- Embeds `StoreController.get` (`GET /users/:userId/stores/:storeId`): the handler
first executes `user.id = userId`, overwriting the authenticated principal's
id with the path parameter, then runs `checkAuthorization(userId, user)` and
delegates to `StoreService.get`. -/
def StoreController.get (user : User) (userId storeId : Nat)
    (stores : List Store) : Except AppError Store := do
  let user := { user with id := userId }
  let _ ← StoreController.checkAuthorization userId user
  StoreService.get user storeId stores

/-! ## Catalog modules (category / color / banner / product services) -/

/-- A row of the `categories` table. -/
structure Category where
  id : Nat
  storeId : Nat
  name : String
  deriving Repr, DecidableEq

/-- A row of the `colors` table. -/
structure Color where
  id : Nat
  storeId : Nat
  name : String
  value : String
  deriving Repr, DecidableEq

/-- A row of the `banners` table. -/
structure Banner where
  id : Nat
  storeId : Nat
  name : String
  imageUrl : String
  deriving Repr, DecidableEq

/-- A row of the `products` table (`price` is rendered back to the client as
a string, carried here verbatim). -/
structure Product where
  id : Nat
  storeId : Nat
  categoryId : Nat
  colorId : Nat
  name : String
  price : String
  isFeatured : Bool
  isArchived : Bool
  deriving Repr, DecidableEq

/-- The catalog tables under the stores, plus the product serial-id
counter. -/
structure CatalogDB where
  stores : List Store
  categories : List Category
  colors : List Color
  banners : List Banner
  products : List Product
  nextProductId : Nat
  deriving Repr, DecidableEq

/-- The `checkExistingStore({ userId, storeId })` helper shared by the
category/color/banner services: `findUnique` on `{ userId, id: storeId }`,
`NotFoundException('Store not found')` on a miss. -/
def CatalogServices.checkExistingStore (db : CatalogDB) (userId storeId : Nat) :
    Except AppError Store :=
  match db.stores.find? (fun s => s.userId == userId && s.id == storeId) with
  | some store => .ok store
  | none => .error (.notFound "Store not found")

/-- Embeds `CategoryService.list`: store ownership check, then a page of the store's
categories; an empty page is `NotFoundException('Categories not found')`. -/
def CategoryService.list (user : User) (storeId page size : Nat)
    (db : CatalogDB) : Except AppError (ListResponse Category) := do
  let store ← CatalogServices.checkExistingStore db user.id storeId
  let skip := (page - 1) * size
  let matching := db.categories.filter (fun c => c.storeId == store.id)
  let categories := (matching.drop skip).take size
  if categories.length == 0 then
    .error (.notFound "Categories not found")
  else
    .ok { data := categories,
          paging := { current_page := page, size := size,
                      total_page := mathCeil matching.length size } }

/-- Embeds `ColorService.list`: same shape as the category listing, failing with
`NotFoundException('Colors not found')` on an empty page. -/
def ColorService.list (user : User) (storeId page size : Nat)
    (db : CatalogDB) : Except AppError (ListResponse Color) := do
  let store ← CatalogServices.checkExistingStore db user.id storeId
  let skip := (page - 1) * size
  let matching := db.colors.filter (fun c => c.storeId == store.id)
  let colors := (matching.drop skip).take size
  if colors.length == 0 then
    .error (.notFound "Colors not found")
  else
    .ok { data := colors,
          paging := { current_page := page, size := size,
                      total_page := mathCeil matching.length size } }

/-- Embeds `BannerService.list`: same shape as the category listing, failing with
`NotFoundException('Banners not found')` on an empty page. -/
def BannerService.list (user : User) (storeId page size : Nat)
    (db : CatalogDB) : Except AppError (ListResponse Banner) := do
  let store ← CatalogServices.checkExistingStore db user.id storeId
  let skip := (page - 1) * size
  let matching := db.banners.filter (fun b => b.storeId == store.id)
  let banners := (matching.drop skip).take size
  if banners.length == 0 then
    .error (.notFound "Banners not found")
  else
    .ok { data := banners,
          paging := { current_page := page, size := size,
                      total_page := mathCeil matching.length size } }

/-- JavaScript truthiness of an optional numeric parameter
(`if (params.categoryId)`): `undefined` and `0` are falsy. -/
def jsTruthy : Option Nat → Bool
  | none => false
  | some n => n != 0

/-- Embeds `ProductService.validateStoreCategoryColor`: resolves the store by
`{ userId, id: storeId }` (`NotFoundException('Store not found')` on a miss);
when a truthy `categoryId` is supplied, resolves the category by
`{ storeId: params.storeId, id: categoryId }`
(`NotFoundException('Category not found')` on a miss); likewise the color
(`NotFoundException('Color not found')`). -/
def ProductService.validateStoreCategoryColor (db : CatalogDB)
    (userId storeId : Nat) (categoryId colorId : Option Nat) :
    Except AppError (Store × Option Category × Option Color) := do
  let store ←
    match db.stores.find? (fun s => s.userId == userId && s.id == storeId) with
    | some s => Except.ok s
    | none => Except.error (.notFound "Store not found")
  let category ←
    if jsTruthy categoryId then
      match db.categories.find? (fun c =>
          c.storeId == storeId && c.id == categoryId.getD 0) with
      | some c => Except.ok (some c)
      | none => Except.error (.notFound "Category not found")
    else Except.ok none
  let color ←
    if jsTruthy colorId then
      match db.colors.find? (fun c =>
          c.storeId == storeId && c.id == colorId.getD 0) with
      | some c => Except.ok (some c)
      | none => Except.error (.notFound "Color not found")
    else Except.ok none
  .ok (store, category, color)

/-- Body of the product creation endpoint (`CreateProductRequest`). -/
structure CreateProductRequest where
  storeId : Nat
  categoryId : Nat
  colorId : Nat
  name : String
  price : String
  description : String
  isFeatured : Bool
  isArchived : Bool
  deriving Repr, DecidableEq

/-- Modelled from the spec: `ProductValidation.CREATE` lives in
`src/modules/product/product.validation.ts`, which is not part of the source
snapshot. Per the spec's Validation Layer it checks shape of the payload
(nonempty name, a price, positive foreign keys) before persistence. -/
def ProductValidation.CREATE (r : CreateProductRequest) : Bool :=
  decide (1 ≤ r.name.length) && decide (1 ≤ r.price.length) &&
  decide (0 < r.storeId) && decide (0 < r.categoryId) && decide (0 < r.colorId)

/-- Embeds `ProductService.create`: resolves store/category/color through
`validateStoreCategoryColor` (category and color are mandatory here: the
insert dereferences `category.id` and `color.id`, which on a `null` crashes
into the generic `InternalServerErrorException` mapping), validates the
payload, then inserts the product row. -/
def ProductService.create (user : User) (request : CreateProductRequest)
    (db : CatalogDB) : Except AppError (CatalogDB × Product) := do
  let (store, category?, color?) ←
    ProductService.validateStoreCategoryColor db user.id request.storeId
      (some request.categoryId) (some request.colorId)
  let _ ← ValidationService.validate (ProductValidation.CREATE request)
  match category?, color? with
  | some category, some color =>
    let product : Product :=
      { id := db.nextProductId, storeId := store.id, categoryId := category.id,
        colorId := color.id, name := request.name, price := request.price,
        isFeatured := request.isFeatured, isArchived := request.isArchived }
    .ok ({ db with products := db.products ++ [product],
                   nextProductId := db.nextProductId + 1 }, product)
  | _, _ => .error (.internal "An unexpected error occurred")

/-- Embeds `ProductService.list`: store ownership check through
`validateStoreCategoryColor` (no category/color), then a page of the store's
products; an empty page is `NotFoundException('Products not found')`. -/
def ProductService.list (user : User) (storeId page size : Nat)
    (db : CatalogDB) : Except AppError (ListResponse Product) := do
  let _ ← ProductService.validateStoreCategoryColor db user.id storeId none none
  let skip := (page - 1) * size
  let matching := db.products.filter (fun p => p.storeId == storeId)
  let products := (matching.drop skip).take size
  if products.length == 0 then
    .error (.notFound "Products not found")
  else
    .ok { data := products,
          paging := { current_page := page, size := size,
                      total_page := mathCeil matching.length size } }

/-! ## Auth module (`AuthService.login`) -/

/-- Body of `POST /auth/login` (`LoginUserRequest`). -/
structure LoginUserRequest where
  email : String
  password : String
  deriving Repr, DecidableEq

/-- Embeds `AuthValidation.LOGIN`: the Zod schema for login (email format per Zod's
`.email()` — abstracted as the `emailFormat` predicate — length 1..100;
password length 8..100). -/
def AuthValidation.LOGIN (emailFormat : String → Bool)
    (r : LoginUserRequest) : Bool :=
  emailFormat r.email &&
  decide (1 ≤ r.email.length) && decide (r.email.length ≤ 100) &&
  decide (8 ≤ r.password.length) && decide (r.password.length ≤ 100)

/-- Response shaped by `AuthService.login` on success. -/
structure UserResponse where
  id : Nat
  name : String
  email : String
  accessToken : String
  role : String
  deriving Repr, DecidableEq

/-- Embeds `AuthService.findUserByEmail`: `findUnique` on the unique email column. -/
def AuthService.findUserByEmail (users : List User) (email : String) :
    Option User :=
  users.find? (fun u => u.email == email)

/-- Embeds `AuthService.login`: validate, look the user up by email
(`UnauthorizedException('Invalid email or password')` on a miss), compare the
password with `bcrypt.compare` (abstracted as `bcryptCompare`; invoked on a
`null` stored hash it rejects, landing in the generic
`InternalServerErrorException('Login failed. Please try again.')` branch),
throw the same `UnauthorizedException('Invalid email or password')` on a
mismatch, and on success issue tokens (generators and the refresh-token hash
abstracted as parameters), store the hashed refresh token, and return the
shaped user. -/
def AuthService.login (emailFormat : String → Bool)
    (bcryptCompare : String → String → Bool)
    (generateAccessToken generateRefreshToken : Nat → String → String)
    (bcryptHash : String → String)
    (users : List User) (request : LoginUserRequest) :
    Except AppError (List User × UserResponse) := do
  let _ ← ValidationService.validate (AuthValidation.LOGIN emailFormat request)
  match AuthService.findUserByEmail users request.email with
  | none => .error (.unauthorized "Invalid email or password")
  | some user =>
    match user.password with
    | none => .error (.internal "Login failed. Please try again.")
    | some storedHash =>
      if ¬ bcryptCompare request.password storedHash then
        .error (.unauthorized "Invalid email or password")
      else
        let accessToken := generateAccessToken user.id user.email
        let refreshToken := generateRefreshToken user.id user.email
        let hashed := bcryptHash refreshToken
        let users' := users.map (fun u =>
          if u.email == user.email then { u with refreshToken := some hashed } else u)
        .ok (users', { id := user.id, name := user.name, email := user.email,
                       accessToken := accessToken, role := user.role })

/-! ## Contact module (`ContactController.update`) -/

/-- Response shaped by `ContactService.update` on success. -/
structure ContactResponse where
  id : Nat
  userId : Nat
  phone : String
  deriving Repr, DecidableEq

/-- Success envelope of a controller (`{ data, statusCode, timestamp }`;
the wall-clock timestamp is omitted). -/
structure WebResponse (α : Type) where
  data : α
  statusCode : Nat
  deriving Repr, DecidableEq

/-- Embeds `ContactController.update` (`PUT /users/:userId/contacts/:contactId`),
parameterized by the outcome of the `ContactService.update` call: the handler
assigns `request.id = contactId`, throws `ForbiddenException` on a principal
mismatch, awaits the service and wraps the result — all inside
`try { ... } catch (error) {}`: the empty catch block swallows every thrown
error and the handler falls through, returning `undefined` (`none`). -/
def ContactController.update (user : User) (userId : Nat)
    (serviceResult : Except AppError ContactResponse) :
    Option (WebResponse ContactResponse) :=
  let body : Except AppError (WebResponse ContactResponse) := do
    let _ ←
      if user.id ≠ userId then
        Except.error (AppError.forbidden
          "You are not authorized to view this user\x27s addresses")
      else Except.ok ()
    let result ← serviceResult
    .ok { data := result, statusCode := 200 }
  match body with
  | .ok r => some r
  | .error _ => none

/-! ## Invariant vocabulary for the primary-address property -/

/-- Number of rows of the `addresses` table flagged primary for a given
user. -/
def primaryCount (db : AddressDB) (userId : Nat) : Nat :=
  (db.rows.filter (fun a => a.userId == userId && a.isPrimary)).length

/-- The primary-address invariant: at most one address of the user is
flagged primary. -/
def atMostOnePrimary (db : AddressDB) (userId : Nat) : Prop :=
  primaryCount db userId ≤ 1

/-- A sequential run of `AddressService.create` calls: each successful call
commits its new table state, each failed call leaves the table unchanged. -/
def AddressService.createSeq (db : AddressDB)
    (ops : List (User × CreateAddressRequest)) : AddressDB :=
  ops.foldl (fun db op =>
    match AddressService.create op.1 db op.2 with
    | .ok (db', _) => db'
    | .error _ => db) db

/-! ## Lemmas about the primary-address bookkeeping -/

/-- After `primaryAddress` runs for a user, none of that user's rows is
flagged primary. -/
theorem primaryAddress_no_primary (db : AddressDB) (u : Nat) :
    ∀ x ∈ (AddressService.primaryAddress db u).rows, x.userId = u → x.isPrimary = false := by
  intro x hx hxu
  simp only [AddressService.primaryAddress, List.mem_map] at hx
  obtain ⟨a, -, rfl⟩ := hx
  by_cases hb : (a.userId == u && a.isPrimary) = true
  · rw [if_pos hb]
  · rw [if_neg hb] at hxu ⊢
    cases hp : a.isPrimary with
    | false => rfl
    | true =>
      exfalso
      apply hb
      rw [show (a.userId == u) = true by simp [hxu], hp]
      rfl

/-- Demoting a user's primaries empties that user's primary filter. -/
theorem demote_filter_self (u : Nat) (rows : List Address) :
    ((rows.map (fun a =>
        if a.userId == u && a.isPrimary then { a with isPrimary := false } else a)).filter
      (fun a => a.userId == u && a.isPrimary)) = [] := by
  induction rows with
  | nil => rfl
  | cons a tl ih =>
    simp only [List.map_cons, List.filter_cons]
    by_cases hb : (a.userId == u && a.isPrimary) = true
    · have hfa : (if (a.userId == u && a.isPrimary) = true
          then { a with isPrimary := false } else a)
          = { a with isPrimary := false } := if_pos hb
      have hnp : ¬ ((({ a with isPrimary := false } : Address).userId == u &&
          ({ a with isPrimary := false } : Address).isPrimary) = true) := by simp
      rw [hfa, if_neg hnp]
      exact ih
    · have hfa : (if (a.userId == u && a.isPrimary) = true
          then { a with isPrimary := false } else a) = a := if_neg hb
      rw [hfa, if_neg hb]
      exact ih

/-- Demoting one user's primaries leaves any other user's primary filter
unchanged. -/
theorem demote_filter_other (u v : Nat) (hvu : v ≠ u) (rows : List Address) :
    ((rows.map (fun a =>
        if a.userId == u && a.isPrimary then { a with isPrimary := false } else a)).filter
      (fun a => a.userId == v && a.isPrimary))
    = rows.filter (fun a => a.userId == v && a.isPrimary) := by
  induction rows with
  | nil => rfl
  | cons a tl ih =>
    simp only [List.map_cons, List.filter_cons]
    by_cases hb : (a.userId == u && a.isPrimary) = true
    · have ha : a.userId = u := by
        have h1 := (Bool.and_eq_true _ _).mp hb
        simpa using h1.1
      have hfa : (if (a.userId == u && a.isPrimary) = true
          then { a with isPrimary := false } else a)
          = { a with isPrimary := false } := if_pos hb
      have hpv : ¬ ((a.userId == v && a.isPrimary) = true) := by
        intro hh
        have h1 := (Bool.and_eq_true _ _).mp hh
        rw [ha] at h1
        have h2 : u = v := by simpa using h1.1
        exact hvu h2.symm
      have hnp : ¬ ((({ a with isPrimary := false } : Address).userId == v &&
          ({ a with isPrimary := false } : Address).isPrimary) = true) := by simp
      rw [hfa, if_neg hnp, if_neg hpv, ih]
    · have hfa : (if (a.userId == u && a.isPrimary) = true
          then { a with isPrimary := false } else a) = a := if_neg hb
      rw [hfa, ih]

/-- Lemma for `primaryAddress` at the `AddressDB` level: the demoted user's primary
filter is empty. -/
theorem primaryAddress_filter_self (db : AddressDB) (u : Nat) :
    (AddressService.primaryAddress db u).rows.filter
      (fun a => a.userId == u && a.isPrimary) = [] :=
  demote_filter_self u db.rows

/-- Lemma for `primaryAddress` at the `AddressDB` level: other users' primary filters
are unchanged. -/
theorem primaryAddress_filter_other (db : AddressDB) (u v : Nat) (hvu : v ≠ u) :
    (AddressService.primaryAddress db u).rows.filter
      (fun a => a.userId == v && a.isPrimary)
    = db.rows.filter (fun a => a.userId == v && a.isPrimary) :=
  demote_filter_other u v hvu db.rows

/-- Lemma computing `primaryCount` across appending one row. -/
theorem primaryCount_append (rows : List Address) (a : Address) (n v : Nat) :
    primaryCount { rows := rows ++ [a], nextId := n } v
      = (rows.filter (fun x => x.userId == v && x.isPrimary)).length
        + (if (a.userId == v && a.isPrimary) = true then 1 else 0) := by
  by_cases h : (a.userId == v && a.isPrimary) = true <;>
    simp [primaryCount, List.filter_append, h]

/-- Characterization of a successful `AddressService.create`: the returned
row is the freshly inserted one (owned by the principal, primary exactly when
requested) and the new table is the (possibly demoted) old table with that
row appended. -/
theorem AddressService.create_ok {user : User} {db db' : AddressDB}
    {r : CreateAddressRequest} {a : Address}
    (h : AddressService.create user db r = .ok (db', a)) :
    a = { id := (if r.isPrimary then AddressService.primaryAddress db user.id else db).nextId,
          userId := user.id, street := r.street, city := r.city,
          province := r.province, country := r.country,
          postalCode := r.postalCode, isPrimary := r.isPrimary }
    ∧ db' = { rows := (if r.isPrimary then AddressService.primaryAddress db user.id else db).rows
                        ++ [a],
              nextId := (if r.isPrimary then AddressService.primaryAddress db user.id else db).nextId
                          + 1 } := by
  by_cases hval : AddressValidation.CREATE r = true
  · cases hfind : db.rows.find? (fun a =>
        a.userId == user.id && a.street == r.street && a.city == r.city &&
        a.province == r.province && a.country == r.country &&
        a.postalCode == r.postalCode) with
    | some x =>
      simp only [AddressService.create, ValidationService.validate,
        AddressService.checkExistingAddress, Bind.bind, Except.bind,
        if_pos hval, hfind] at h
      exact Except.noConfusion h
    | none =>
      simp only [AddressService.create, ValidationService.validate,
        AddressService.checkExistingAddress, Bind.bind, Except.bind,
        if_pos hval, hfind, Except.ok.injEq, Prod.mk.injEq] at h
      obtain ⟨hdb, ha⟩ := h
      subst ha
      exact ⟨rfl, hdb.symm⟩
  · simp only [AddressService.create, ValidationService.validate,
      Bind.bind, Except.bind, if_neg hval] at h
    exact Except.noConfusion h

/-- One step of `createSeq` preserves the primary-address invariant. -/
theorem createSeq_step_preserves (v : Nat) (db : AddressDB)
    (op : User × CreateAddressRequest) (h : atMostOnePrimary db v) :
    atMostOnePrimary (match AddressService.create op.1 db op.2 with
      | .ok (db', _) => db'
      | .error _ => db) v := by
  cases hc : AddressService.create op.1 db op.2 with
  | error e => exact h
  | ok res =>
    obtain ⟨db', a⟩ := res
    obtain ⟨ha, hdb⟩ := AddressService.create_ok hc
    subst hdb
    by_cases hp : op.2.isPrimary = true
    · rw [atMostOnePrimary, hp, if_pos rfl, primaryCount_append]
      rcases eq_or_ne v op.1.id with rfl | hvu
      · have h0 : ((AddressService.primaryAddress db op.1.id).rows.filter
            (fun x => x.userId == op.1.id && x.isPrimary)).length = 0 := by
          rw [primaryAddress_filter_self]
          rfl
        rw [h0]
        by_cases hind : (a.userId == op.1.id && a.isPrimary) = true <;> simp [hind]
      · have hne : (a.userId == v) = false := by
          rw [ha]
          exact beq_eq_false_iff_ne.mpr (Ne.symm hvu)
        have hcnt : ((AddressService.primaryAddress db op.1.id).rows.filter
            (fun x => x.userId == v && x.isPrimary)).length = primaryCount db v := by
          rw [primaryAddress_filter_other db op.1.id v hvu]
          rfl
        rw [hcnt]
        simpa [hne] using h
    · have hp' : op.2.isPrimary = false := by simpa using hp
      rw [atMostOnePrimary, hp', if_neg (by simp), primaryCount_append]
      have hind : (a.userId == v && a.isPrimary) = false := by
        rw [ha]
        simp [hp']
      rw [hind]
      simpa [primaryCount] using h

/-- A list containing an element satisfying the predicate yields a `find?`
hit satisfying the predicate. -/
theorem find?_some_of_mem {α : Type} (p : α → Bool) (l : List α) (a : α)
    (ha : a ∈ l) (hp : p a = true) : ∃ b, l.find? p = some b ∧ p b = true := by
  induction l with
  | nil => cases ha
  | cons x tl ih =>
    by_cases hx : p x = true
    · exact ⟨x, List.find?_cons_of_pos _ hx, hx⟩
    · rcases List.mem_cons.mp ha with rfl | hmem
      · exact absurd hp hx
      · obtain ⟨b, hb, hpb⟩ := ih hmem
        refine ⟨b, ?_, hpb⟩
        rw [List.find?_cons_of_neg _ (by simpa using hx), hb]

/-! ## Claim theorems -/

/-- Claim C2: starting from any table satisfying the invariant, after any
sequential completed run of `AddressService.create` calls, at most one
address row of user `userId` is flagged primary. -/
theorem c2_at_most_one_primary_after_creates (userId : Nat) (db : AddressDB)
    (ops : List (User × CreateAddressRequest)) (h : atMostOnePrimary db userId) :
    atMostOnePrimary (AddressService.createSeq db ops) userId := by
  induction ops generalizing db with
  | nil => exact h
  | cons op tl ih =>
    rw [AddressService.createSeq, List.foldl_cons]
    exact ih _ (createSeq_step_preserves userId db op h)

/-- Witness for C2: two consecutive primary-flagged creates for user 1 on an
empty table still leave at most one primary row. -/
theorem c2_at_most_one_primary_after_creates_witness :
    atMostOnePrimary (AddressService.createSeq { rows := [], nextId := 1 }
      [({ id := 1, name := "Ana", email := "ana@example.com", password := none,
          refreshToken := none, role := "CUSTOMER" },
        { userId := 1, street := "First Street", city := "Bandung",
          province := "West Java", country := "Indonesia", postalCode := "40111",
          isPrimary := true }),
       ({ id := 1, name := "Ana", email := "ana@example.com", password := none,
          refreshToken := none, role := "CUSTOMER" },
        { userId := 1, street := "Second Street", city := "Bandung",
          province := "West Java", country := "Indonesia", postalCode := "40112",
          isPrimary := true })]) 1 :=
  c2_at_most_one_primary_after_creates 1 { rows := [], nextId := 1 } _
    (by show primaryCount { rows := [], nextId := 1 } 1 ≤ 1; decide)

/-- Claim C3: a successful `AddressService.create` with `isPrimary = true`
first demotes every existing primary of the user and then appends the new
row, which is primary, owned by the user, and the unique primary row
afterwards. -/
theorem c3_create_primary_demotes_then_promotes (user : User) (db db' : AddressDB)
    (r : CreateAddressRequest) (a : Address) (hp : r.isPrimary = true)
    (h : AddressService.create user db r = .ok (db', a)) :
    db'.rows = (AddressService.primaryAddress db user.id).rows ++ [a]
    ∧ a.isPrimary = true ∧ a.userId = user.id
    ∧ (∀ x ∈ (AddressService.primaryAddress db user.id).rows,
        x.userId = user.id → x.isPrimary = false)
    ∧ primaryCount db' user.id = 1 := by
  obtain ⟨ha, hdb⟩ := AddressService.create_ok h
  subst hdb
  refine ⟨by rw [hp, if_pos rfl], by rw [ha, hp], by rw [ha],
    primaryAddress_no_primary db user.id, ?_⟩
  rw [hp, if_pos rfl, primaryCount_append]
  have h0 : ((AddressService.primaryAddress db user.id).rows.filter
      (fun x => x.userId == user.id && x.isPrimary)).length = 0 := by
    rw [primaryAddress_filter_self]
    rfl
  have hind : (a.userId == user.id && a.isPrimary) = true := by
    rw [ha, hp]
    simp
  rw [h0, hind]
  simp

/-- Witness for C3: a primary-flagged create for user 1 over a table holding
one existing primary row demotes it and promotes the new row. -/
theorem c3_create_primary_demotes_then_promotes_witness :
    ({ rows := [{ id := 1, userId := 1, street := "Old Street", city := "Bandung",
                  province := "West Java", country := "Indonesia",
                  postalCode := "40111", isPrimary := false },
                { id := 2, userId := 1, street := "New Street", city := "Bandung",
                  province := "West Java", country := "Indonesia",
                  postalCode := "40112", isPrimary := true }],
       nextId := 3 } : AddressDB).rows
      = (AddressService.primaryAddress
          { rows := [{ id := 1, userId := 1, street := "Old Street", city := "Bandung",
                       province := "West Java", country := "Indonesia",
                       postalCode := "40111", isPrimary := true }],
            nextId := 2 } 1).rows
        ++ [{ id := 2, userId := 1, street := "New Street", city := "Bandung",
              province := "West Java", country := "Indonesia",
              postalCode := "40112", isPrimary := true }]
    ∧ ({ id := 2, userId := 1, street := "New Street", city := "Bandung",
         province := "West Java", country := "Indonesia",
         postalCode := "40112", isPrimary := true } : Address).isPrimary = true
    ∧ ({ id := 2, userId := 1, street := "New Street", city := "Bandung",
         province := "West Java", country := "Indonesia",
         postalCode := "40112", isPrimary := true } : Address).userId = 1
    ∧ (∀ x ∈ (AddressService.primaryAddress
          { rows := [{ id := 1, userId := 1, street := "Old Street", city := "Bandung",
                       province := "West Java", country := "Indonesia",
                       postalCode := "40111", isPrimary := true }],
            nextId := 2 } 1).rows,
        x.userId = 1 → x.isPrimary = false)
    ∧ primaryCount
        { rows := [{ id := 1, userId := 1, street := "Old Street", city := "Bandung",
                     province := "West Java", country := "Indonesia",
                     postalCode := "40111", isPrimary := false },
                   { id := 2, userId := 1, street := "New Street", city := "Bandung",
                     province := "West Java", country := "Indonesia",
                     postalCode := "40112", isPrimary := true }],
          nextId := 3 } 1 = 1 :=
  c3_create_primary_demotes_then_promotes
    { id := 1, name := "Ana", email := "ana@example.com", password := none,
      refreshToken := none, role := "CUSTOMER" }
    { rows := [{ id := 1, userId := 1, street := "Old Street", city := "Bandung",
                 province := "West Java", country := "Indonesia",
                 postalCode := "40111", isPrimary := true }],
      nextId := 2 }
    { rows := [{ id := 1, userId := 1, street := "Old Street", city := "Bandung",
                 province := "West Java", country := "Indonesia",
                 postalCode := "40111", isPrimary := false },
               { id := 2, userId := 1, street := "New Street", city := "Bandung",
                 province := "West Java", country := "Indonesia",
                 postalCode := "40112", isPrimary := true }],
      nextId := 3 }
    { userId := 1, street := "New Street", city := "Bandung",
      province := "West Java", country := "Indonesia", postalCode := "40112",
      isPrimary := true }
    { id := 2, userId := 1, street := "New Street", city := "Bandung",
      province := "West Java", country := "Indonesia", postalCode := "40112",
      isPrimary := true }
    rfl (by rfl)

/-- Claim C1 (`code_bug` evidence): with a token for user 7, posting a valid
address payload to `/users/5/addresses` does not fail with an authorization
error — the controller's guard compares the freshly assigned
`request.userId` with `userId` and can never fire — and the service creates
an address row (under the principal's own id 7). -/
theorem c1_create_ignores_principal_mismatch :
    AddressController.create
      { id := 7, name := "Eve", email := "eve@example.com", password := none,
        refreshToken := none, role := "CUSTOMER" }
      5
      { userId := 0, street := "Main Street", city := "Bandung",
        province := "West Java", country := "Indonesia", postalCode := "40111",
        isPrimary := true }
      { rows := [], nextId := 1 }
    = .ok ({ rows := [{ id := 1, userId := 7, street := "Main Street",
                        city := "Bandung", province := "West Java",
                        country := "Indonesia", postalCode := "40111",
                        isPrimary := true }], nextId := 2 },
           { id := 1, userId := 7, street := "Main Street", city := "Bandung",
             province := "West Java", country := "Indonesia",
             postalCode := "40111", isPrimary := true }) := by
  rfl

/-- Claim C4 (`code_bug` evidence): with a token for user 7,
`GET /users/5/stores/10` — store 10 belonging to user 5 — returns user 5's
store: the handler overwrites `user.id` with the path `userId` before the
authorization check, so the check never fires and the ownership lookup runs
against the path user instead of the principal. -/
theorem c4_get_returns_foreign_store :
    StoreController.get
      { id := 7, name := "Eve", email := "eve@example.com", password := none,
        refreshToken := none, role := "CUSTOMER" }
      5 10
      [{ id := 10, userId := 5, name := "victim store" }]
    = .ok { id := 10, userId := 5, name := "victim store" } := by
  rfl

/-- Claim C5 (`code_bug` evidence): user 1 owns store 5, yet
`StoreService.delete(user 1, 5)` fails `NotFound`: the delete path calls
`checkExistingStore(user.id, id)` with the arguments swapped, so it looks for
a store with id 1 owned by user 5. -/
theorem c5_delete_owned_store_not_found :
    StoreService.delete
      { id := 1, name := "Owner", email := "owner@example.com", password := none,
        refreshToken := none, role := "CUSTOMER" }
      5
      [{ id := 5, userId := 1, name := "my shop" }]
    = .error (.notFound "Store not found") := by
  rfl

/-- Claim C7 (`code_bug` evidence): user 1 owns store 5 ("shop") and store 6
("target"); renaming store 5 to "target" succeeds and leaves user 1 with two
stores named "target": the uniqueness re-check calls
`checkStoreNameExists(store.id, name, user.id)` with the owner id and the
excluded id swapped, so it scans the stores of the nonexistent user 5
instead of user 1's. -/
theorem c7_update_admits_duplicate_name :
    StoreService.update
      { id := 1, name := "Owner", email := "owner@example.com", password := none,
        refreshToken := none, role := "CUSTOMER" }
      { id := 5, name := "target" }
      [{ id := 5, userId := 1, name := "shop" },
       { id := 6, userId := 1, name := "target" }]
    = .ok ([{ id := 5, userId := 1, name := "target" },
            { id := 6, userId := 1, name := "target" }],
           { id := 5, userId := 1, name := "target" }) := by
  rfl

/-- Claim C10: whatever error `ContactService.update` throws, the
`ContactController.update` handler swallows it — its catch block is empty —
and the endpoint resolves to `undefined` instead of an error envelope. -/
theorem c10_contact_update_swallows_service_error
    (user : User) (userId : Nat) (e : AppError) (h : user.id = userId) :
    ContactController.update user userId (.error e) = none := by
  simp [ContactController.update, h, Bind.bind, Except.bind]

/-- Witness for C10 at a concrete principal and a concrete service error. -/
theorem c10_contact_update_swallows_service_error_witness :
    ContactController.update
      { id := 3, name := "Cara", email := "cara@example.com", password := none,
        refreshToken := none, role := "CUSTOMER" }
      3 (.error (.notFound "Contact not found")) = none :=
  c10_contact_update_swallows_service_error _ _ _ rfl

/-- Claim C9: for a login request that passes validation, an email matching
no user and an existing email (with a stored hash) whose password comparison
fails both produce the very same
`UnauthorizedException('Invalid email or password')`, so the two failure
causes are indistinguishable from the response. -/
theorem c9_login_failures_indistinguishable
    (emailFormat : String → Bool) (bcryptCompare : String → String → Bool)
    (genAccess genRefresh : Nat → String → String) (bcryptHash : String → String)
    (users : List User) (request : LoginUserRequest)
    (hv : AuthValidation.LOGIN emailFormat request = true) :
    (AuthService.findUserByEmail users request.email = none →
      AuthService.login emailFormat bcryptCompare genAccess genRefresh bcryptHash
        users request = .error (.unauthorized "Invalid email or password"))
    ∧ (∀ user storedHash,
        AuthService.findUserByEmail users request.email = some user →
        user.password = some storedHash →
        bcryptCompare request.password storedHash = false →
        AuthService.login emailFormat bcryptCompare genAccess genRefresh bcryptHash
          users request = .error (.unauthorized "Invalid email or password")) := by
  constructor
  · intro hnone
    simp [AuthService.login, ValidationService.validate, hv, hnone, Bind.bind, Except.bind]
  · intro user storedHash hsome hpw hcmp
    simp [AuthService.login, ValidationService.validate, hv, hsome, hpw, hcmp, Bind.bind, Except.bind]

/-- Witness for C9: a one-user database where the stored hash never matches,
and the same request against an empty database, both yield the identical
`Unauthorized` error. -/
theorem c9_login_failures_indistinguishable_witness :
    AuthService.login (fun _ => true) (fun _ _ => false) (fun _ _ => "t")
      (fun _ _ => "r") (fun _ => "h")
      [{ id := 1, name := "Alice", email := "alice@example.com",
         password := some "stored-hash", refreshToken := none, role := "CUSTOMER" }]
      { email := "alice@example.com", password := "password1" }
      = .error (.unauthorized "Invalid email or password")
    ∧ AuthService.login (fun _ => true) (fun _ _ => false) (fun _ _ => "t")
      (fun _ _ => "r") (fun _ => "h") []
      { email := "alice@example.com", password := "password1" }
      = .error (.unauthorized "Invalid email or password") := by
  constructor
  · exact (c9_login_failures_indistinguishable (fun _ => true) (fun _ _ => false)
      (fun _ _ => "t") (fun _ _ => "r") (fun _ => "h")
      [{ id := 1, name := "Alice", email := "alice@example.com",
         password := some "stored-hash", refreshToken := none, role := "CUSTOMER" }]
      { email := "alice@example.com", password := "password1" } (by rfl)).2
      _ "stored-hash" rfl rfl rfl
  · exact (c9_login_failures_indistinguishable (fun _ => true) (fun _ _ => false)
      (fun _ _ => "t") (fun _ _ => "r") (fun _ => "h") []
      { email := "alice@example.com", password := "password1" } (by rfl)).1 rfl

/-- Claim C6: for an owned store, a product-creation request whose
`categoryId` refers to a category of a different store fails with
`NotFoundException('Category not found')`, and one whose `colorId` refers to
a color of a different store (with the category resolving as a sibling)
fails with `NotFoundException('Color not found')`; in either case nothing is
inserted. -/
theorem c6_cross_store_product_refs_rejected (user : User) (db : CatalogDB)
    (r : CreateProductRequest)
    (hstore : ∃ s ∈ db.stores, s.userId = user.id ∧ s.id = r.storeId) :
    ((∃ c ∈ db.categories, c.id = r.categoryId ∧ c.storeId ≠ r.storeId) →
      (∀ c ∈ db.categories, c.id = r.categoryId → c.storeId ≠ r.storeId) →
      r.categoryId ≠ 0 →
      ProductService.create user r db = .error (.notFound "Category not found"))
    ∧ ((∃ c ∈ db.colors, c.id = r.colorId ∧ c.storeId ≠ r.storeId) →
      (∀ c ∈ db.colors, c.id = r.colorId → c.storeId ≠ r.storeId) →
      r.colorId ≠ 0 →
      (∃ c ∈ db.categories, c.storeId = r.storeId ∧ c.id = r.categoryId) →
      ProductService.create user r db = .error (.notFound "Color not found")) := by
  obtain ⟨s, hs, hsu, hsi⟩ := hstore
  have hps : (fun x => x.userId == user.id && x.id == r.storeId) s = true := by
    simp [hsu, hsi]
  obtain ⟨b, hb, -⟩ := find?_some_of_mem
    (fun x => x.userId == user.id && x.id == r.storeId) db.stores s hs hps
  constructor
  · intro _ hall hnz
    have ht : (r.categoryId != 0) = true := by simpa using hnz
    have hnone : db.categories.find? (fun c =>
        c.storeId == r.storeId && c.id == r.categoryId) = none := by
      rw [List.find?_eq_none]
      intro c hc hpc
      have h1 := (Bool.and_eq_true _ _).mp hpc
      exact hall c hc (by simpa using h1.2) (by simpa using h1.1)
    simp only [ProductService.create, ProductService.validateStoreCategoryColor,
      Bind.bind, Except.bind, hb, jsTruthy, ht, Option.getD_some, hnone]
    rfl
  · intro _ hall hnz hcat
    have ht : (r.colorId != 0) = true := by simpa using hnz
    obtain ⟨c0, hc0, hc0s, hc0i⟩ := hcat
    have hpc : (fun x => x.storeId == r.storeId && x.id == r.categoryId) c0 = true := by
      simp [hc0s, hc0i]
    obtain ⟨bc, hbc, -⟩ := find?_some_of_mem
      (fun x => x.storeId == r.storeId && x.id == r.categoryId) db.categories c0 hc0 hpc
    have hnone : db.colors.find? (fun c =>
        c.storeId == r.storeId && c.id == r.colorId) = none := by
      rw [List.find?_eq_none]
      intro c hc hpcol
      have h1 := (Bool.and_eq_true _ _).mp hpcol
      exact hall c hc (by simpa using h1.2) (by simpa using h1.1)
    by_cases hcz : (r.categoryId != 0) = true
    · simp only [ProductService.create, ProductService.validateStoreCategoryColor,
        Bind.bind, Except.bind, hb, jsTruthy, ht, hcz, hbc, hnone,
        Option.getD_some, eq_self_iff_true, if_true]
    · have hcz' : (r.categoryId != 0) = false := by
        revert hcz
        cases (r.categoryId != 0) <;> simp
      simp only [ProductService.create, ProductService.validateStoreCategoryColor,
        Bind.bind, Except.bind, hb, jsTruthy, ht, hcz', hnone,
        Option.getD_some, eq_self_iff_true, if_true, Bool.false_eq_true, if_false]

/-- Witness for C6: user 1 owns store 1; category 7 and color 9 both live
under store 2. Creating a product in store 1 referencing category 7 fails
"Category not found"; with a sibling category 8 under store 1 but the
cross-store color 9, it fails "Color not found". -/
theorem c6_cross_store_product_refs_rejected_witness :
    ProductService.create
      { id := 1, name := "Owner", email := "owner@example.com", password := none,
        refreshToken := none, role := "CUSTOMER" }
      { storeId := 1, categoryId := 7, colorId := 9, name := "tee",
        price := "10", description := "d", isFeatured := false, isArchived := false }
      { stores := [{ id := 1, userId := 1, name := "mine" }],
        categories := [{ id := 7, storeId := 2, name := "cross" }],
        colors := [{ id := 9, storeId := 2, name := "red", value := "#f00" }],
        banners := [], products := [], nextProductId := 1 }
      = .error (.notFound "Category not found")
    ∧ ProductService.create
      { id := 1, name := "Owner", email := "owner@example.com", password := none,
        refreshToken := none, role := "CUSTOMER" }
      { storeId := 1, categoryId := 8, colorId := 9, name := "tee",
        price := "10", description := "d", isFeatured := false, isArchived := false }
      { stores := [{ id := 1, userId := 1, name := "mine" }],
        categories := [{ id := 8, storeId := 1, name := "sibling" }],
        colors := [{ id := 9, storeId := 2, name := "red", value := "#f00" }],
        banners := [], products := [], nextProductId := 1 }
      = .error (.notFound "Color not found") := by
  constructor
  · exact (c6_cross_store_product_refs_rejected
      { id := 1, name := "Owner", email := "owner@example.com", password := none,
        refreshToken := none, role := "CUSTOMER" }
      { stores := [{ id := 1, userId := 1, name := "mine" }],
        categories := [{ id := 7, storeId := 2, name := "cross" }],
        colors := [{ id := 9, storeId := 2, name := "red", value := "#f00" }],
        banners := [], products := [], nextProductId := 1 }
      { storeId := 1, categoryId := 7, colorId := 9, name := "tee",
        price := "10", description := "d", isFeatured := false, isArchived := false }
      ⟨{ id := 1, userId := 1, name := "mine" }, by simp, rfl, rfl⟩).1
      ⟨{ id := 7, storeId := 2, name := "cross" }, by simp, rfl, by decide⟩
      (by intro c hc hid; simp at hc; subst hc; decide)
      (by decide)
  · exact (c6_cross_store_product_refs_rejected
      { id := 1, name := "Owner", email := "owner@example.com", password := none,
        refreshToken := none, role := "CUSTOMER" }
      { stores := [{ id := 1, userId := 1, name := "mine" }],
        categories := [{ id := 8, storeId := 1, name := "sibling" }],
        colors := [{ id := 9, storeId := 2, name := "red", value := "#f00" }],
        banners := [], products := [], nextProductId := 1 }
      { storeId := 1, categoryId := 8, colorId := 9, name := "tee",
        price := "10", description := "d", isFeatured := false, isArchived := false }
      ⟨{ id := 1, userId := 1, name := "mine" }, by simp, rfl, rfl⟩).2
      ⟨{ id := 9, storeId := 2, name := "red", value := "#f00" }, by simp, rfl, by decide⟩
      (by intro c hc hid; simp at hc; subst hc; decide)
      (by decide)
      ⟨{ id := 8, storeId := 1, name := "sibling" }, by simp, rfl, rfl⟩

/-- Claim C8: with a valid parent chain, an empty result page raises
`NotFound` for the store-scoped catalog listings (categories, colors,
banners, products), while the address listing returns a normal response with
an empty data array. -/
theorem c8_empty_page_policy (user : User) (storeId page size limit : Nat)
    (db : CatalogDB) (adb : AddressDB)
    (hstore : ∃ s ∈ db.stores, s.userId = user.id ∧ s.id = storeId)
    (hcat : ((db.categories.filter (fun c => c.storeId == storeId)).drop
        ((page - 1) * size)).take size = [])
    (hcol : ((db.colors.filter (fun c => c.storeId == storeId)).drop
        ((page - 1) * size)).take size = [])
    (hban : ((db.banners.filter (fun b => b.storeId == storeId)).drop
        ((page - 1) * size)).take size = [])
    (hprod : ((db.products.filter (fun p => p.storeId == storeId)).drop
        ((page - 1) * size)).take size = [])
    (hadr : adb.rows.filter (fun a => a.userId == user.id) = []) :
    CategoryService.list user storeId page size db
        = .error (.notFound "Categories not found")
    ∧ ColorService.list user storeId page size db
        = .error (.notFound "Colors not found")
    ∧ BannerService.list user storeId page size db
        = .error (.notFound "Banners not found")
    ∧ ProductService.list user storeId page size db
        = .error (.notFound "Products not found")
    ∧ ∃ resp, AddressService.list user adb limit page = .ok resp
        ∧ resp.data = [] := by
  obtain ⟨s, hs, hsu, hsi⟩ := hstore
  have hps : (fun x => x.userId == user.id && x.id == storeId) s = true := by
    simp [hsu, hsi]
  obtain ⟨b, hb, hpb⟩ := find?_some_of_mem
    (fun x => x.userId == user.id && x.id == storeId) db.stores s hs hps
  have hbid : b.id = storeId := by
    have h1 := (Bool.and_eq_true _ _).mp hpb
    simpa using h1.2
  refine ⟨?_, ?_, ?_, ?_, ?_⟩
  · simp only [CategoryService.list, CatalogServices.checkExistingStore,
      Bind.bind, Except.bind, hb, hbid, hcat]
    rfl
  · simp only [ColorService.list, CatalogServices.checkExistingStore,
      Bind.bind, Except.bind, hb, hbid, hcol]
    rfl
  · simp only [BannerService.list, CatalogServices.checkExistingStore,
      Bind.bind, Except.bind, hb, hbid, hban]
    rfl
  · simp only [ProductService.list, ProductService.validateStoreCategoryColor,
      Bind.bind, Except.bind, hb, jsTruthy, hprod]
    rfl
  · refine ⟨_, rfl, ?_⟩
    show ((adb.rows.filter (fun a => a.userId == user.id)).drop
        ((page - 1) * limit)).take limit = []
    rw [hadr]
    simp

/-- Witness for C8: user 1 owns store 1 with an empty catalog and has no
addresses; every catalog listing raises its `NotFound`, the address listing
returns an empty page. -/
theorem c8_empty_page_policy_witness :
    CategoryService.list
      { id := 1, name := "Owner", email := "owner@example.com", password := none,
        refreshToken := none, role := "CUSTOMER" } 1 1 10
      { stores := [{ id := 1, userId := 1, name := "mine" }], categories := [],
        colors := [], banners := [], products := [], nextProductId := 1 }
      = .error (.notFound "Categories not found")
    ∧ ColorService.list
      { id := 1, name := "Owner", email := "owner@example.com", password := none,
        refreshToken := none, role := "CUSTOMER" } 1 1 10
      { stores := [{ id := 1, userId := 1, name := "mine" }], categories := [],
        colors := [], banners := [], products := [], nextProductId := 1 }
      = .error (.notFound "Colors not found")
    ∧ BannerService.list
      { id := 1, name := "Owner", email := "owner@example.com", password := none,
        refreshToken := none, role := "CUSTOMER" } 1 1 10
      { stores := [{ id := 1, userId := 1, name := "mine" }], categories := [],
        colors := [], banners := [], products := [], nextProductId := 1 }
      = .error (.notFound "Banners not found")
    ∧ ProductService.list
      { id := 1, name := "Owner", email := "owner@example.com", password := none,
        refreshToken := none, role := "CUSTOMER" } 1 1 10
      { stores := [{ id := 1, userId := 1, name := "mine" }], categories := [],
        colors := [], banners := [], products := [], nextProductId := 1 }
      = .error (.notFound "Products not found")
    ∧ ∃ resp, AddressService.list
      { id := 1, name := "Owner", email := "owner@example.com", password := none,
        refreshToken := none, role := "CUSTOMER" }
      { rows := [], nextId := 1 } 5 1 = .ok resp ∧ resp.data = [] :=
  c8_empty_page_policy
    { id := 1, name := "Owner", email := "owner@example.com", password := none,
      refreshToken := none, role := "CUSTOMER" } 1 1 10 5
    { stores := [{ id := 1, userId := 1, name := "mine" }], categories := [],
      colors := [], banners := [], products := [], nextProductId := 1 }
    { rows := [], nextId := 1 }
    ⟨{ id := 1, userId := 1, name := "mine" }, by simp, rfl, rfl⟩
    rfl rfl rfl rfl rfl

end Technopedia
